import Mathlib

set_option maxHeartbeats 1000000

namespace PlottingStyle

/-- Python strings are modelled as lists of Unicode code points. -/
abbrev PyStr := List Nat

/-- Code points of a Lean string literal, used to write concrete Python strings. -/
def pstr (s : String) : PyStr := s.data.map Char.toNat

/-- Python truthiness of a string: nonempty strings are truthy. -/
def truthy (s : PyStr) : Bool := !s.isEmpty

/-- Python truthiness of an optional string: None and the empty string are falsy. -/
def truthyOpt (o : Option PyStr) : Bool :=
  match o with
  | none => false
  | some s => truthy s

/-- Whitespace test matching Python str.strip and the regex class backslash-s on ASCII. -/
def isPySpace (c : Nat) : Bool := decide (c = 32 ∨ c = 9 ∨ c = 10 ∨ c = 11 ∨ c = 12 ∨ c = 13)

/-- A code point is cased when it is an ASCII letter. Models Python casing on ASCII. -/
def isCased (c : Nat) : Bool := decide ((97 ≤ c ∧ c ≤ 122) ∨ (65 ≤ c ∧ c ≤ 90))

/-- ASCII lowercasing of one code point, as Python str.lower does on ASCII. -/
def pyLower (c : Nat) : Nat := if 65 ≤ c ∧ c ≤ 90 then c + 32 else c

/-- ASCII uppercasing of one code point, as Python str.upper does on ASCII. -/
def pyUpper (c : Nat) : Nat := if 97 ≤ c ∧ c ≤ 122 then c - 32 else c

/-- Python str.lower on a whole string, character by character. -/
def pyStrLower (s : PyStr) : PyStr := s.map pyLower

/-- Python str.strip: drop leading and trailing whitespace. -/
def pyStrip (s : PyStr) : PyStr :=
  ((s.dropWhile isPySpace).reverse.dropWhile isPySpace).reverse

/-- Model of re.sub with a whitespace-run pattern and a single-space replacement:
every maximal whitespace run becomes one space (code point 32). The Boolean flag
records whether the previous character was part of a whitespace run. -/
def collapse : Bool → PyStr → PyStr
  | _, [] => []
  | prev, c :: rest =>
    if isPySpace c then
      if prev then collapse true rest else 32 :: collapse true rest
    else c :: collapse false rest

/-- Model of Python str.title on ASCII: the first cased character of each run of
cased characters is uppercased, the later ones are lowercased; uncased characters
are kept unchanged and end the run. The flag records whether the previous
character was cased. -/
def pyTitle : Bool → PyStr → PyStr
  | _, [] => []
  | prev, c :: rest =>
    if isCased c then
      (if prev then pyLower c else pyUpper c) :: pyTitle true rest
    else c :: pyTitle false rest

/-- Embedding of the helper _title_case of plotting_style.py: strip the ends,
collapse internal whitespace runs to single spaces, then apply Python title
casing. -/
def _title_case (s : PyStr) : PyStr := pyTitle false (collapse false (pyStrip s))

theorem title_case_eval_revenue :
    _title_case (pstr "quarterly   revenue") = pstr "Quarterly Revenue" := by decide

theorem title_case_eval_millions :
    _title_case (pstr "  in millions ") = pstr "In Millions" := by decide

/-- Whitespace test on the first character of a string. -/
def headSpace (l : PyStr) : Bool :=
  match l with
  | [] => false
  | c :: _ => isPySpace c

/-- Internal whitespace is well formed: every whitespace character is a single
space (code point 32) that is not followed by further whitespace. -/
def wsOk : PyStr → Bool
  | [] => true
  | c :: rest => (if isPySpace c then c == 32 && !(headSpace rest) else true) && wsOk rest

/-- The string consists of words separated by single spaces, with no leading or
trailing whitespace. This is the shape named by the idempotence claim. -/
def normed (l : PyStr) : Bool := wsOk l && !(headSpace l) && !(headSpace l.reverse)

theorem dropWhile_of_headSpace_false (l : PyStr) (h : headSpace l = false) :
    l.dropWhile isPySpace = l := by
  cases l with
  | nil => rfl
  | cons c rest =>
    simp only [headSpace] at h
    simp [List.dropWhile_cons, h]

theorem pyStrip_of_normed (l : PyStr) (h1 : headSpace l = false)
    (h2 : headSpace l.reverse = false) : pyStrip l = l := by
  unfold pyStrip
  rw [dropWhile_of_headSpace_false l h1, dropWhile_of_headSpace_false l.reverse h2,
    List.reverse_reverse]

theorem collapse_of_wsOk : ∀ (l : PyStr) (b : Bool), wsOk l = true →
    (b = true → headSpace l = false) → collapse b l = l := by
  intro l
  induction l with
  | nil => intro b _ _; rfl
  | cons c rest ih =>
    intro b hws hb
    by_cases hc : isPySpace c = true
    · have hb2 : b = false := by
        cases b
        · rfl
        · have := hb rfl
          simp [headSpace, hc] at this
      subst hb2
      simp only [wsOk, hc, if_true, Bool.and_eq_true, beq_iff_eq, Bool.not_eq_true'] at hws
      obtain ⟨⟨hc32, hrest⟩, hws⟩ := hws
      simp only [collapse, hc, if_true, Bool.false_eq_true, if_false]
      rw [ih true hws (fun _ => hrest), hc32]
    · simp only [wsOk, hc, Bool.false_eq_true, if_false, true_and] at hws
      simp only [collapse, hc, Bool.false_eq_true, if_false]
      rw [ih false hws (fun h => nomatch h)]

theorem collapse_pyStrip_of_normed (l : PyStr) (h : normed l = true) :
    collapse false (pyStrip l) = l := by
  unfold normed at h
  simp only [Bool.and_eq_true, Bool.not_eq_true'] at h
  obtain ⟨⟨hws, hh⟩, ht⟩ := h
  rw [pyStrip_of_normed l hh ht]
  exact collapse_of_wsOk l false hws (fun h => nomatch h)

theorem isCased_pyLower (c : Nat) : isCased (pyLower c) = isCased c := by
  unfold isCased pyLower
  split <;> (rw [decide_eq_decide]; try omega)

theorem isCased_pyUpper (c : Nat) : isCased (pyUpper c) = isCased c := by
  unfold isCased pyUpper
  split <;> (rw [decide_eq_decide]; try omega)

theorem isPySpace_pyLower (c : Nat) : isPySpace (pyLower c) = isPySpace c := by
  unfold isPySpace pyLower
  split <;> (rw [decide_eq_decide]; try omega)

theorem isPySpace_pyUpper (c : Nat) : isPySpace (pyUpper c) = isPySpace c := by
  unfold isPySpace pyUpper
  split <;> (rw [decide_eq_decide]; try omega)

theorem isPySpace_of_isCased (c : Nat) (h : isCased c = true) : isPySpace c = false := by
  revert h
  unfold isCased isPySpace
  simp only [decide_eq_true_eq, decide_eq_false_iff_not]
  omega

theorem pyLower_pyLower (c : Nat) : pyLower (pyLower c) = pyLower c := by
  unfold pyLower
  split_ifs <;> omega

theorem pyUpper_pyUpper (c : Nat) : pyUpper (pyUpper c) = pyUpper c := by
  unfold pyUpper
  split_ifs <;> omega

theorem pyTitle_nil (b : Bool) : pyTitle b [] = [] := rfl

theorem pyTitle_cons (b : Bool) (c : Nat) (rest : PyStr) :
    pyTitle b (c :: rest) =
      if isCased c then (if b then pyLower c else pyUpper c) :: pyTitle true rest
      else c :: pyTitle false rest := rfl

theorem pyTitle_idem : ∀ (l : PyStr) (b : Bool), pyTitle b (pyTitle b l) = pyTitle b l := by
  intro l
  induction l with
  | nil => intro b; rfl
  | cons c rest ih =>
    intro b
    by_cases hc : isCased c = true
    · have hd : isCased (if b then pyLower c else pyUpper c) = true := by
        cases b <;> simp [isCased_pyLower, isCased_pyUpper, hc]
      simp only [pyTitle_cons, hc, if_true, hd, ih true]
      cases b <;> simp [pyLower_pyLower, pyUpper_pyUpper]
    · simp only [pyTitle_cons, hc, Bool.false_eq_true, if_false, ih false]

theorem headSpace_pyTitle (b : Bool) (l : PyStr) : headSpace (pyTitle b l) = headSpace l := by
  cases l with
  | nil => rfl
  | cons c rest =>
    rw [pyTitle_cons]
    by_cases hc : isCased c = true
    · simp only [hc, if_true, headSpace]
      cases b <;> simp [isPySpace_pyLower, isPySpace_pyUpper]
    · simp [hc, headSpace]

theorem wsOk_pyTitle : ∀ (l : PyStr) (b : Bool), wsOk (pyTitle b l) = wsOk l := by
  intro l
  induction l with
  | nil => intro b; rfl
  | cons c rest ih =>
    intro b
    rw [pyTitle_cons]
    by_cases hc : isCased c = true
    · have hsp : isPySpace c = false := isPySpace_of_isCased c hc
      have hd : isPySpace (if b then pyLower c else pyUpper c) = false := by
        cases b <;> simp [isPySpace_pyLower, isPySpace_pyUpper, hsp]
      simp [hc, wsOk, hd, hsp, ih true]
    · simp [hc, wsOk, headSpace_pyTitle, ih false]

theorem pyTitle_eq_nil_iff (b : Bool) (l : PyStr) : pyTitle b l = [] ↔ l = [] := by
  cases l with
  | nil => simp [pyTitle_nil]
  | cons c rest =>
    rw [pyTitle_cons]
    split <;> simp

theorem headSpace_append_single (l : PyStr) (d : Nat) :
    headSpace (l ++ [d]) = if l = [] then isPySpace d else headSpace l := by
  cases l <;> simp [headSpace]

theorem headSpace_reverse_pyTitle : ∀ (l : PyStr) (b : Bool),
    headSpace (pyTitle b l).reverse = headSpace l.reverse := by
  intro l
  induction l with
  | nil => intro b; rfl
  | cons c rest ih =>
    intro b
    rw [pyTitle_cons]
    by_cases hr : rest = []
    · subst hr
      by_cases hc : isCased c = true
      · simp only [hc, if_true, pyTitle_nil, List.reverse_cons, List.reverse_nil,
          List.nil_append, headSpace]
        cases b <;> simp [isPySpace_pyLower, isPySpace_pyUpper]
      · simp [hc, pyTitle_nil, headSpace]
    · have h1 : (pyTitle true rest).reverse ≠ [] := by
        simp [List.reverse_eq_nil_iff, pyTitle_eq_nil_iff, hr]
      have h2 : (pyTitle false rest).reverse ≠ [] := by
        simp [List.reverse_eq_nil_iff, pyTitle_eq_nil_iff, hr]
      have h3 : rest.reverse ≠ [] := by simp [List.reverse_eq_nil_iff, hr]
      by_cases hc : isCased c = true
      · simp only [hc, if_true, List.reverse_cons]
        rw [headSpace_append_single, if_neg h1, headSpace_append_single, if_neg h3, ih]
      · simp only [hc, Bool.false_eq_true, if_false, List.reverse_cons]
        rw [headSpace_append_single, if_neg h2, headSpace_append_single, if_neg h3, ih]

theorem normed_pyTitle (l : PyStr) (b : Bool) : normed (pyTitle b l) = normed l := by
  unfold normed
  rw [wsOk_pyTitle, headSpace_pyTitle, headSpace_reverse_pyTitle]

/-- C7: the title-casing transform of plotting_style.py is idempotent on ASCII
strings whose words are separated by single spaces (no leading or trailing
whitespace, single spaces between words). -/
theorem title_case_idempotent (s : PyStr) (hascii : ∀ c ∈ s, c < 128)
    (hnorm : normed s = true) :
    _title_case (_title_case s) = _title_case s := by
  have h1 : collapse false (pyStrip s) = s := collapse_pyStrip_of_normed s hnorm
  unfold _title_case
  rw [h1]
  have h2 : normed (pyTitle false s) = true := by rw [normed_pyTitle]; exact hnorm
  rw [collapse_pyStrip_of_normed _ h2, pyTitle_idem]

/-- Witness for C7 at the concrete input "hello world". -/
theorem title_case_idempotent_witness :
    _title_case (_title_case (pstr "hello world")) = _title_case (pstr "hello world") :=
  title_case_idempotent (pstr "hello world") (by decide) (by decide)

/-- Value of one ASCII hex digit, case-insensitive. -/
def hexDigit (c : Nat) : Option Nat :=
  if 48 ≤ c ∧ c ≤ 57 then some (c - 48)
  else if 97 ≤ c ∧ c ≤ 102 then some (c - 87)
  else if 65 ≤ c ∧ c ≤ 70 then some (c - 55)
  else none

/-- Model of matplotlib color parsing for hash-RRGGBB hex strings:
case-insensitive hex digits to an RGB byte triple; other strings fail. -/
def parseHex (s : PyStr) : Option (Nat × Nat × Nat) :=
  match s with
  | [h0, a, b, c, d, e, f] =>
    if h0 = 35 then
      match hexDigit a, hexDigit b, hexDigit c, hexDigit d, hexDigit e, hexDigit f with
      | some x1, some x2, some x3, some x4, some x5, some x6 =>
        some (16 * x1 + x2, 16 * x3 + x4, 16 * x5 + x6)
      | _, _, _, _, _, _ => none
    else none
  | _ => none

/-- Model of a matplotlib colormap built by LinearSegmentedColormap.from_list:
its lookup table is fully determined by the RGB values parsed from the control
colors and the sample count, so those are stored, together with the name the
colormap is registered under. -/
structure Colormap where
  name : PyStr
  colors : List (Option (Nat × Nat × Nat))
  n : Nat
deriving DecidableEq

/-- Embedding of LinearSegmentedColormap.from_list as used in plotting_style.py. -/
def fromList (name : PyStr) (cs : List PyStr) (n : Nat) : Colormap :=
  ⟨name, cs.map parseHex, n⟩

/-- Ordering used by _sorted_hex: compare hex strings case-insensitively,
which is Python sorted with a lowercasing key. -/
def hexKeyLe (a b : PyStr) : Prop := pyStrLower a ≤ pyStrLower b

instance : DecidableRel hexKeyLe := fun a b =>
  inferInstanceAs (Decidable (pyStrLower a ≤ pyStrLower b))

instance : IsTotal PyStr hexKeyLe := ⟨fun a b => le_total (pyStrLower a) (pyStrLower b)⟩

instance : IsTrans PyStr hexKeyLe := ⟨fun _ _ _ h1 h2 => le_trans h1 h2⟩

/-- Embedding of _sorted_hex: a stable sort of the colors by their
case-insensitively compared hex strings. -/
def _sorted_hex (colors : List PyStr) : List PyStr := List.insertionSort hexKeyLe colors

/-- The OKABE_ITO palette constant of plotting_style.py. -/
def OKABE_ITO : List PyStr :=
  [pstr "#0072B2", pstr "#E69F00", pstr "#009E73", pstr "#CC79A7",
   pstr "#56B4E9", pstr "#F0E442", pstr "#D55E00"]

/-- The KIWIISH palette constant of plotting_style.py. -/
def KIWIISH : List PyStr :=
  [pstr "#7CFF6B", pstr "#00B3A4", pstr "#F0E442", pstr "#B45CFF",
   pstr "#56B4E9", pstr "#FF8A00", pstr "#0072B2"]

/-- OKABE_ITO_CMAP, precomputed at module load from the sorted palette. -/
def OKABE_ITO_CMAP : Colormap := fromList (pstr "okabe_ito_cont") (_sorted_hex OKABE_ITO) 256

/-- KIWIISH_CMAP, precomputed at module load from the sorted palette. -/
def KIWIISH_CMAP : Colormap := fromList (pstr "kiwiish_cont") (_sorted_hex KIWIISH) 256

/-- The continuous-colormap derivation used for the built-in palettes:
case-insensitive sort, then interpolation over 256 samples. -/
def deriveContinuousCmap (name : PyStr) (colors : List PyStr) : Colormap :=
  fromList name (_sorted_hex colors) 256

theorem pyLower_eq_35_iff (c : Nat) : pyLower c = 35 ↔ c = 35 := by
  unfold pyLower
  split_ifs <;> omega

theorem hexDigit_pyLower (c : Nat) : hexDigit (pyLower c) = hexDigit c := by
  unfold hexDigit pyLower
  split_ifs <;> simp_all <;> omega

theorem parseHex_pyStrLower (s : PyStr) : parseHex (pyStrLower s) = parseHex s := by
  rcases s with _ | ⟨c0, _ | ⟨c1, _ | ⟨c2, _ | ⟨c3, _ | ⟨c4, _ | ⟨c5, _ | ⟨c6, _ | ⟨c7, t⟩⟩⟩⟩⟩⟩⟩⟩ <;>
    simp only [pyStrLower, List.map, parseHex]
  by_cases h0 : c0 = 35
  · rw [if_pos ((pyLower_eq_35_iff c0).mpr h0), if_pos h0,
      hexDigit_pyLower c1, hexDigit_pyLower c2, hexDigit_pyLower c3,
      hexDigit_pyLower c4, hexDigit_pyLower c5, hexDigit_pyLower c6]
  · rw [if_neg (fun h => h0 ((pyLower_eq_35_iff c0).mp h)), if_neg h0]

theorem sorted_hex_lower_eq (l1 l2 : List PyStr) (hperm : l1.Perm l2) :
    (_sorted_hex l1).map pyStrLower = (_sorted_hex l2).map pyStrLower := by
  exact @List.eq_of_perm_of_sorted PyStr (fun a b => a ≤ b) inferInstance _ _
    (((List.perm_insertionSort hexKeyLe l1).map pyStrLower).trans
      ((hperm.map pyStrLower).trans ((List.perm_insertionSort hexKeyLe l2).map pyStrLower).symm))
    (List.Pairwise.map pyStrLower (fun a b h => h) (List.sorted_insertionSort hexKeyLe l1))
    (List.Pairwise.map pyStrLower (fun a b h => h) (List.sorted_insertionSort hexKeyLe l2))

/-- C2: the continuous-colormap derivation (case-insensitive sort of the hex
color list followed by linear interpolation over 256 samples) is invariant
under permutation of its input list. -/
theorem derive_cmap_perm_invariant (name : PyStr) (l1 l2 : List PyStr)
    (hperm : l1.Perm l2) (hhex : ∀ c ∈ l1, (parseHex c).isSome = true) :
    deriveContinuousCmap name l1 = deriveContinuousCmap name l2 := by
  unfold deriveContinuousCmap fromList
  have key : ∀ l : List PyStr, l.map parseHex = (l.map pyStrLower).map parseHex := by
    intro l
    rw [List.map_map]
    exact (List.map_congr_left (fun a _ => (parseHex_pyStrLower a).symm))
  have h2 : (_sorted_hex l1).map parseHex = (_sorted_hex l2).map parseHex := by
    rw [key (_sorted_hex l1), key (_sorted_hex l2), sorted_hex_lower_eq l1 l2 hperm]
  rw [h2]

/-- Witness for C2 on a concrete two-color palette and its reversal. -/
theorem derive_cmap_perm_invariant_witness :
    deriveContinuousCmap (pstr "custom_cont") [pstr "#E69F00", pstr "#0072B2"]
      = deriveContinuousCmap (pstr "custom_cont") [pstr "#0072B2", pstr "#E69F00"] :=
  derive_cmap_perm_invariant (pstr "custom_cont") _ _ (by decide) (by decide)

/-- Values stored in the matplotlib rcParams registry. -/
inductive RcValue
  | s (v : PyStr)
  | q (v : ℚ)
  | b (v : Bool)
  | pair (x y : ℚ)
  | cyc (colors : List PyStr)
deriving DecidableEq

/-- Replace or append one key of the rcParams registry. -/
def rcSet (m : List (PyStr × RcValue)) (k : PyStr) (v : RcValue) : List (PyStr × RcValue) :=
  match m with
  | [] => [(k, v)]
  | (k2, v2) :: rest => if k2 = k then (k, v) :: rest else (k2, v2) :: rcSet rest k v

/-- Look one key up in the rcParams registry. -/
def rcGet (m : List (PyStr × RcValue)) (k : PyStr) : Option RcValue :=
  match m with
  | [] => none
  | (k2, v2) :: rest => if k2 = k then some v2 else rcGet rest k

/-- Python dict.get with a default value. -/
def rcGetD (m : List (PyStr × RcValue)) (k : PyStr) (d : RcValue) : RcValue :=
  (rcGet m k).getD d

/-- Model of mpl.rcParams.update with a literal dict. -/
def rcUpdate (m : List (PyStr × RcValue)) (kvs : List (PyStr × RcValue)) :
    List (PyStr × RcValue) :=
  kvs.foldl (fun acc kv => rcSet acc kv.1 kv.2) m

/-- Module constant TEXT_COLOR. -/
def TEXT_COLOR : PyStr := pstr "#333333"

/-- Module constant TITLE_COLOR. -/
def TITLE_COLOR : PyStr := pstr "#000000"

/-- Module constant SUBTITLE_COLOR. -/
def SUBTITLE_COLOR : PyStr := pstr "#8A8A8A"

/-- Process-wide mutable plotting state: the rcParams registry, the named
colormap registry, and the module-level _ACTIVE_CMAP slot. -/
structure GlobalState where
  rcParams : List (PyStr × RcValue)
  cmapRegistry : List Colormap
  activeCmap : Option Colormap
deriving DecidableEq

/-- Font handles returned by the optional font provider, kept as bare ids. -/
abbrev Font := Nat

/-- Signature of pyfonts load_google_font: family name and optional weight;
the call may raise, which Except models. -/
abbrev LoadFontFn := PyStr → Option Nat → Except Unit Font

/-- Signature of pyfonts set_default_font. -/
abbrev SetFontFn := Font → Except Unit Unit

/-- Embedding of the PlotFonts dataclass. -/
structure PlotFonts where
  base : Option Font
  bold : Option Font
deriving DecidableEq

/-- The fixed rcParams bundle written by the update call of apply_style. -/
def coreRcParams : List (PyStr × RcValue) :=
  [(pstr "figure.figsize", .pair 12 8),
   (pstr "figure.dpi", .q 110),
   (pstr "savefig.dpi", .q 200),
   (pstr "figure.autolayout", .b false),
   (pstr "figure.subplot.hspace", .q 0.4),
   (pstr "figure.subplot.wspace", .q 0.3),
   (pstr "figure.subplot.top", .q 0.80),
   (pstr "text.color", .s TEXT_COLOR),
   (pstr "font.family", .s (pstr "sans-serif")),
   (pstr "font.size", .q 11),
   (pstr "axes.labelsize", .q 12),
   (pstr "axes.labelpad", .q 5),
   (pstr "axes.labelcolor", .s TEXT_COLOR),
   (pstr "axes.titlelocation", .s (pstr "left")),
   (pstr "axes.titlesize", .q 14),
   (pstr "axes.titleweight", .s (pstr "bold")),
   (pstr "axes.titlecolor", .s TITLE_COLOR),
   (pstr "axes.edgecolor", .s (pstr "none")),
   (pstr "axes.linewidth", .q 0),
   (pstr "xtick.color", .s TEXT_COLOR),
   (pstr "ytick.color", .s TEXT_COLOR),
   (pstr "xtick.labelsize", .q 11),
   (pstr "ytick.labelsize", .q 11),
   (pstr "xtick.direction", .s (pstr "out")),
   (pstr "ytick.direction", .s (pstr "out")),
   (pstr "xtick.major.size", .q 0),
   (pstr "ytick.major.size", .q 0),
   (pstr "xtick.minor.size", .q 0),
   (pstr "ytick.minor.size", .q 0),
   (pstr "axes.grid", .b true),
   (pstr "axes.grid.which", .s (pstr "major")),
   (pstr "axes.grid.axis", .s (pstr "both")),
   (pstr "grid.color", .s (pstr "#999999")),
   (pstr "grid.alpha", .q 0.3),
   (pstr "grid.linewidth", .q 0.5),
   (pstr "grid.linestyle", .s (pstr ":")),
   (pstr "axes.spines.left", .b false),
   (pstr "axes.spines.right", .b false),
   (pstr "axes.spines.top", .b false),
   (pstr "axes.spines.bottom", .b false),
   (pstr "legend.frameon", .b false),
   (pstr "legend.fontsize", .q 12),
   (pstr "lines.linewidth", .q 2),
   (pstr "lines.solid_capstyle", .s (pstr "round")),
   (pstr "axes.formatter.useoffset", .b false)]

/-- Modelled from the spec: the optional seaborn integration (set_theme with a
white style and set_palette) acts by writing into the shared rcParams registry;
its writes are later overridden by the explicit rcParams bundle and the
discrete-cycle assignment of apply_style. -/
def seabornStep (g : GlobalState) (useSeaborn snsAvailable : Bool)
    (palette : List PyStr) : GlobalState :=
  let themed := rcUpdate g.rcParams
    [(pstr "axes.facecolor", .s (pstr "white")), (pstr "axes.prop_cycle", .cyc palette)]
  if useSeaborn && snsAvailable then { g with rcParams := themed } else g

/-- Model of mpl.colormaps.register with force: replace any colormap already
registered under the same name, else append. -/
def registerCmap (reg : List Colormap) (c : Colormap) : List Colormap :=
  match reg with
  | [] => [c]
  | r :: rest => if r.name = c.name then c :: rest else r :: registerCmap rest c

/-- The body of the try block of the font step: load the font at the default
weight and at weight 800, then install the regular weight as default. -/
def fontAttempt (load : LoadFontFn) (setd : SetFontFn) (name : PyStr) :
    Except Unit (Font × Font) := do
  let font ← load name none
  let fontBold ← load name (some 800)
  let _ ← setd font
  pure (font, fontBold)

/-- The font step of apply_style: skipped when disabled or when the optional
dependency is absent (the guard returns the empty pair); any failure raised
inside the try block also yields the empty pair. -/
def fontStep (installFont : Bool) (load? : Option LoadFontFn) (setd? : Option SetFontFn)
    (fontName : PyStr) : PlotFonts :=
  match installFont, load?, setd? with
  | false, _, _ => ⟨none, none⟩
  | _, none, _ => ⟨none, none⟩
  | _, _, none => ⟨none, none⟩
  | true, some load, some setd =>
    match fontAttempt load setd fontName with
    | .ok (f, fb) => ⟨some f, some fb⟩
    | .error _ => ⟨none, none⟩

/-- The continuous-colormap resolution of apply_style: the explicit argument if
given, else a precomputed built-in on value equality with a built-in palette,
else a fresh colormap from the palette in its given order. -/
def resolveCmap (palette : List PyStr) (cmap? : Option Colormap) : Colormap :=
  match cmap? with
  | some c => c
  | none =>
    if palette = KIWIISH then KIWIISH_CMAP
    else if palette = OKABE_ITO then OKABE_ITO_CMAP
    else fromList (pstr "custom_cont") palette 256

/-- Embedding of apply_style: seaborn step, rcParams bundle, discrete cycle,
colormap resolution, registration, image.cmap default, active-colormap slot,
then the best-effort font step. Returns the new global state and the fonts. -/
def apply_style (g : GlobalState) (snsAvailable : Bool) (load? : Option LoadFontFn)
    (setd? : Option SetFontFn) (useSeaborn : Bool) (palette : List PyStr)
    (installFont : Bool) (fontName : PyStr) (cmap? : Option Colormap) :
    GlobalState × PlotFonts :=
  let g1 := seabornStep g useSeaborn snsAvailable palette
  let g2 := { g1 with rcParams := rcUpdate g1.rcParams coreRcParams }
  let g3 := { g2 with rcParams := rcSet g2.rcParams (pstr "axes.prop_cycle") (.cyc palette) }
  let cmap := resolveCmap palette cmap?
  let g4 := { g3 with cmapRegistry := registerCmap g3.cmapRegistry cmap }
  let g5 := { g4 with rcParams := rcSet g4.rcParams (pstr "image.cmap") (.s cmap.name) }
  let g6 := { g5 with activeCmap := some cmap }
  (g6, fontStep installFont load? setd? fontName)

theorem rcGet_rcSet_self (m : List (PyStr × RcValue)) (k : PyStr) (v : RcValue) :
    rcGet (rcSet m k v) k = some v := by
  induction m with
  | nil => simp [rcSet, rcGet]
  | cons kv rest ih =>
    obtain ⟨k2, v2⟩ := kv
    by_cases h : k2 = k
    · simp [rcSet, rcGet, h]
    · simp [rcSet, rcGet, h, ih]

theorem rcGet_rcSet_ne (m : List (PyStr × RcValue)) (k k2 : PyStr) (v : RcValue)
    (h : k2 ≠ k) : rcGet (rcSet m k v) k2 = rcGet m k2 := by
  induction m with
  | nil =>
    simp only [rcSet, rcGet]
    rw [if_neg (fun hh : k = k2 => h hh.symm)]
  | cons kv rest ih =>
    obtain ⟨k3, v3⟩ := kv
    by_cases h3 : k3 = k <;> by_cases h4 : k3 = k2 <;>
      simp_all [rcSet, rcGet]

/-- C6: apply_style installs the discrete color cycle as exactly the palette in
the order given by the caller; the sort-normalization used for the colormap
derivation is not applied to it. -/
theorem apply_style_prop_cycle (g : GlobalState) (snsAvailable : Bool)
    (load? : Option LoadFontFn) (setd? : Option SetFontFn) (useSeaborn : Bool)
    (palette : List PyStr) (installFont : Bool) (fontName : PyStr)
    (cmap? : Option Colormap) :
    rcGet ((apply_style g snsAvailable load? setd? useSeaborn palette installFont
        fontName cmap?).1.rcParams) (pstr "axes.prop_cycle")
      = some (RcValue.cyc palette) := by
  unfold apply_style
  simp only
  rw [rcGet_rcSet_ne _ (pstr "image.cmap") (pstr "axes.prop_cycle") _ (by decide),
    rcGet_rcSet_self]

theorem resolveCmap_some (palette : List PyStr) (c : Colormap) :
    resolveCmap palette (some c) = c := rfl

theorem resolveCmap_none (palette : List PyStr) :
    resolveCmap palette none =
      if palette = KIWIISH then KIWIISH_CMAP
      else if palette = OKABE_ITO then OKABE_ITO_CMAP
      else fromList (pstr "custom_cont") palette 256 := rfl

theorem resolveCmap_kiwiish : resolveCmap KIWIISH none = KIWIISH_CMAP := by
  rw [resolveCmap_none, if_pos (show KIWIISH = KIWIISH from rfl)]

theorem resolveCmap_okabe : resolveCmap OKABE_ITO none = OKABE_ITO_CMAP := by
  rw [resolveCmap_none, if_neg (show ¬(OKABE_ITO = KIWIISH) by decide),
    if_pos (show OKABE_ITO = OKABE_ITO from rfl)]

theorem resolveCmap_custom (palette : List PyStr) (h1 : palette ≠ KIWIISH)
    (h2 : palette ≠ OKABE_ITO) :
    resolveCmap palette none = fromList (pstr "custom_cont") palette 256 := by
  rw [resolveCmap_none, if_neg h1, if_neg h2]

theorem apply_style_activeCmap (g : GlobalState) (snsAvailable : Bool)
    (load? : Option LoadFontFn) (setd? : Option SetFontFn) (useSeaborn : Bool)
    (palette : List PyStr) (installFont : Bool) (fontName : PyStr)
    (cmap? : Option Colormap) :
    (apply_style g snsAvailable load? setd? useSeaborn palette installFont
      fontName cmap?).1.activeCmap = some (resolveCmap palette cmap?) := rfl

theorem apply_style_imageCmap (g : GlobalState) (snsAvailable : Bool)
    (load? : Option LoadFontFn) (setd? : Option SetFontFn) (useSeaborn : Bool)
    (palette : List PyStr) (installFont : Bool) (fontName : PyStr)
    (cmap? : Option Colormap) :
    rcGet ((apply_style g snsAvailable load? setd? useSeaborn palette installFont
        fontName cmap?).1.rcParams) (pstr "image.cmap")
      = some (RcValue.s (resolveCmap palette cmap?).name) := by
  unfold apply_style
  simp only
  rw [rcGet_rcSet_self]

/-- C3: the continuous colormap installed as the image.cmap default and
recorded in the active-colormap slot follows the precedence: the explicit cmap
argument if given; else the precomputed built-in colormap when the palette
equals a built-in palette by value; else a fresh colormap interpolated from the
palette in its given order, without the sort-normalization step. -/
theorem apply_style_cmap_resolution (g : GlobalState) (snsAvailable : Bool)
    (load? : Option LoadFontFn) (setd? : Option SetFontFn) (useSeaborn : Bool)
    (palette : List PyStr) (installFont : Bool) (fontName : PyStr)
    (cmap? : Option Colormap) :
    (∀ c, cmap? = some c →
      (apply_style g snsAvailable load? setd? useSeaborn palette installFont
        fontName cmap?).1.activeCmap = some c ∧
      rcGet ((apply_style g snsAvailable load? setd? useSeaborn palette installFont
        fontName cmap?).1.rcParams) (pstr "image.cmap") = some (RcValue.s c.name)) ∧
    (cmap? = none → palette = KIWIISH →
      (apply_style g snsAvailable load? setd? useSeaborn palette installFont
        fontName cmap?).1.activeCmap = some KIWIISH_CMAP ∧
      rcGet ((apply_style g snsAvailable load? setd? useSeaborn palette installFont
        fontName cmap?).1.rcParams) (pstr "image.cmap")
        = some (RcValue.s KIWIISH_CMAP.name)) ∧
    (cmap? = none → palette = OKABE_ITO →
      (apply_style g snsAvailable load? setd? useSeaborn palette installFont
        fontName cmap?).1.activeCmap = some OKABE_ITO_CMAP ∧
      rcGet ((apply_style g snsAvailable load? setd? useSeaborn palette installFont
        fontName cmap?).1.rcParams) (pstr "image.cmap")
        = some (RcValue.s OKABE_ITO_CMAP.name)) ∧
    (cmap? = none → palette ≠ KIWIISH → palette ≠ OKABE_ITO →
      (apply_style g snsAvailable load? setd? useSeaborn palette installFont
        fontName cmap?).1.activeCmap
          = some (fromList (pstr "custom_cont") palette 256) ∧
      rcGet ((apply_style g snsAvailable load? setd? useSeaborn palette installFont
        fontName cmap?).1.rcParams) (pstr "image.cmap")
        = some (RcValue.s (fromList (pstr "custom_cont") palette 256).name)) := by
  have hA := apply_style_activeCmap g snsAvailable load? setd? useSeaborn palette
    installFont fontName cmap?
  have hI := apply_style_imageCmap g snsAvailable load? setd? useSeaborn palette
    installFont fontName cmap?
  refine ⟨?_, ?_, ?_, ?_⟩
  · intro c hc
    rw [hc] at hA hI ⊢
    rw [resolveCmap_some] at hA hI
    exact ⟨hA, hI⟩
  · intro hc hp
    rw [hc, hp] at hA hI ⊢
    rw [resolveCmap_kiwiish] at hA hI
    exact ⟨hA, hI⟩
  · intro hc hp
    rw [hc, hp] at hA hI ⊢
    rw [resolveCmap_okabe] at hA hI
    exact ⟨hA, hI⟩
  · intro hc h1 h2
    rw [hc] at hA hI ⊢
    rw [resolveCmap_custom palette h1 h2] at hA hI
    exact ⟨hA, hI⟩

/-- Witness for C3: applying the style with no explicit cmap and the OKABE_ITO
palette records the precomputed built-in colormap. -/
theorem apply_style_cmap_resolution_witness :
    (apply_style ⟨[], [], none⟩ true none none true OKABE_ITO true
      (pstr "Funnel Sans") none).1.activeCmap = some OKABE_ITO_CMAP ∧
    rcGet ((apply_style ⟨[], [], none⟩ true none none true OKABE_ITO true
      (pstr "Funnel Sans") none).1.rcParams) (pstr "image.cmap")
        = some (RcValue.s OKABE_ITO_CMAP.name) :=
  (apply_style_cmap_resolution ⟨[], [], none⟩ true none none true OKABE_ITO true
    (pstr "Funnel Sans") none).2.2.1 rfl rfl

/-- C4: the font step of apply_style is best-effort: with the step disabled,
with the font-loading dependency absent, or with any failure raised inside the
try block, apply_style returns a PlotFonts with both handles absent; the
embedding is total, so the configuration call itself never raises. -/
theorem apply_style_font_fallback (g : GlobalState) (snsAvailable : Bool)
    (load? : Option LoadFontFn) (setd? : Option SetFontFn) (useSeaborn : Bool)
    (palette : List PyStr) (installFont : Bool) (fontName : PyStr)
    (cmap? : Option Colormap) :
    (installFont = false →
      (apply_style g snsAvailable load? setd? useSeaborn palette installFont
        fontName cmap?).2 = ⟨none, none⟩) ∧
    (load? = none →
      (apply_style g snsAvailable load? setd? useSeaborn palette installFont
        fontName cmap?).2 = ⟨none, none⟩) ∧
    (setd? = none →
      (apply_style g snsAvailable load? setd? useSeaborn palette installFont
        fontName cmap?).2 = ⟨none, none⟩) ∧
    (∀ load setd e, load? = some load → setd? = some setd →
      fontAttempt load setd fontName = .error e →
      (apply_style g snsAvailable load? setd? useSeaborn palette installFont
        fontName cmap?).2 = ⟨none, none⟩) := by
  have h2 : (apply_style g snsAvailable load? setd? useSeaborn palette installFont
      fontName cmap?).2 = fontStep installFont load? setd? fontName := rfl
  rw [h2]
  refine ⟨?_, ?_, ?_, ?_⟩
  · intro hc
    rw [hc]
    cases load? <;> cases setd? <;> rfl
  · intro hc
    rw [hc]
    cases installFont <;> cases setd? <;> rfl
  · intro hc
    rw [hc]
    cases installFont <;> cases load? <;> rfl
  · intro load setd e h1 hset herr
    rw [h1, hset]
    cases installFont
    · rfl
    · unfold fontStep
      simp only [herr]

/-- Witness for C4: with the font step disabled, apply_style returns the empty
font pair. -/
theorem apply_style_font_fallback_witness :
    (apply_style ⟨[], [], none⟩ true none none true OKABE_ITO false
      (pstr "Funnel Sans") none).2 = ⟨none, none⟩ :=
  (apply_style_font_fallback ⟨[], [], none⟩ true none none true OKABE_ITO false
    (pstr "Funnel Sans") none).1 rfl

/-- One text artifact drawn on an axes by ax.text, in axes coordinates. -/
structure TextArtifact where
  x : ℚ
  y : ℚ
  text : PyStr
  ha : PyStr
  va : PyStr
  fontsize : RcValue
  fontweight : RcValue
  color : RcValue
  clipOn : Bool
deriving DecidableEq

/-- Model of a matplotlib legend as rebuilt by style_plot. -/
structure Legend where
  handles : List Nat
  labels : List PyStr
  ncol : Nat
  loc : PyStr
  anchor : ℚ × ℚ
  frameon : Bool
deriving DecidableEq

/-- A raster image attached to an axes; set_cmap overwrites its colormap. -/
structure Image where
  cmap : Option Colormap
deriving DecidableEq

/-- A collection artifact attached to an axes; hasSetCmap models whether the
object has a set_cmap attribute. -/
structure Collection where
  hasSetCmap : Bool
  cmap : Option Colormap
deriving DecidableEq

/-- The mutable per-axes state touched by set_title and style_plot. Handles and
labels are what get_legend_handles_labels returns, with handles as bare ids. -/
structure Axes where
  title : PyStr
  texts : List TextArtifact
  xRotation : ℚ
  yRotation : ℚ
  xFormatter : Option (ℚ → PyStr)
  yFormatter : Option (ℚ → PyStr)
  handles : List Nat
  labels : List PyStr
  legend : Option Legend
  xlabel : PyStr
  ylabel : PyStr
  images : List Image
  collections : List Collection

/-- An axes with no artifacts, used for concrete evaluations. -/
def axEmpty : Axes :=
  { title := [], texts := [], xRotation := 0, yRotation := 0, xFormatter := none,
    yFormatter := none, handles := [], labels := [], legend := none, xlabel := [],
    ylabel := [], images := [], collections := [] }

/-- The title string after the casing block of set_title: cased only when
title casing is requested and the title is truthy. -/
def casedTitle (title_case : Bool) (title : PyStr) : PyStr :=
  if title_case && truthy title then _title_case title else title

/-- The subtitle after the casing block of set_title. The source cases the
subtitle only inside the branch guarded by a truthy title, and only when the
subtitle itself is truthy. -/
def casedSubtitle (title_case : Bool) (title : PyStr) (subtitle : Option PyStr) :
    Option PyStr :=
  if title_case && truthy title then
    match subtitle with
    | some s => if truthy s then some (_title_case s) else some s
    | none => none
  else subtitle

/-- Embedding of set_title: the casing block, clearing of the native title,
anchor selection from axes.titlelocation, one ax.text call for the title, and
one more for the subtitle when it is truthy after the casing block. -/
def set_title (g : GlobalState) (ax : Axes) (title : PyStr) (subtitle : Option PyStr)
    (title_y : ℚ) (subtitle_gap : ℚ) (subtitle_fontsize : ℚ)
    (subtitle_color : PyStr) (subtitle_weight : PyStr) (title_case : Bool) : Axes :=
  let title2 := casedTitle title_case title
  let subtitle2 := casedSubtitle title_case title subtitle
  let ax1 := { ax with title := [] }
  let loc := rcGetD g.rcParams (pstr "axes.titlelocation") (.s (pstr "center"))
  let pos :=
    if loc = .s (pstr "left") then ((0 : ℚ), pstr "left")
    else if loc = .s (pstr "right") then ((1 : ℚ), pstr "right")
    else ((1 : ℚ) / 2, pstr "center")
  let titleArt : TextArtifact :=
    { x := pos.1, y := title_y, text := title2, ha := pos.2, va := pstr "bottom",
      fontsize := rcGetD g.rcParams (pstr "axes.titlesize") (.q 14),
      fontweight := rcGetD g.rcParams (pstr "axes.titleweight") (.s (pstr "bold")),
      color := rcGetD g.rcParams (pstr "axes.titlecolor") (.s TITLE_COLOR),
      clipOn := false }
  let ax2 := { ax1 with texts := ax1.texts ++ [titleArt] }
  if truthyOpt subtitle2 then
    let subArt : TextArtifact :=
      { x := pos.1, y := title_y - subtitle_gap, text := subtitle2.getD [],
        ha := pos.2, va := pstr "bottom", fontsize := .q subtitle_fontsize,
        fontweight := .s subtitle_weight, color := .s subtitle_color, clipOn := false }
    { ax2 with texts := ax2.texts ++ [subArt] }
  else ax2

theorem casedSubtitle_of_falsy (title_case : Bool) (title : PyStr)
    (subtitle : Option PyStr) (h : truthyOpt subtitle = false) :
    casedSubtitle title_case title subtitle = subtitle := by
  unfold casedSubtitle
  split_ifs with hc
  · cases subtitle with
    | none => rfl
    | some s =>
      simp only [truthyOpt] at h
      simp [h]
  · rfl

/-- C8: set_title with an absent or empty subtitle draws exactly one text
artifact, carrying the (possibly cased) title, and clears the native title;
no subtitle artifact is created. -/
theorem set_title_no_subtitle (g : GlobalState) (ax : Axes) (title : PyStr)
    (subtitle : Option PyStr) (title_y subtitle_gap subtitle_fontsize : ℚ)
    (subtitle_color subtitle_weight : PyStr) (title_case : Bool)
    (h : truthyOpt subtitle = false) :
    ((set_title g ax title subtitle title_y subtitle_gap subtitle_fontsize
        subtitle_color subtitle_weight title_case).texts.map TextArtifact.text
      = ax.texts.map TextArtifact.text ++ [casedTitle title_case title]) ∧
    (set_title g ax title subtitle title_y subtitle_gap subtitle_fontsize
        subtitle_color subtitle_weight title_case).title = [] := by
  unfold set_title
  rw [casedSubtitle_of_falsy title_case title subtitle h]
  simp only [h, Bool.false_eq_true, if_false]
  constructor
  · rw [List.map_append]
    rfl
  · trivial

/-- Witness for C8 at a concrete call with an absent subtitle. -/
theorem set_title_no_subtitle_witness :
    ((set_title ⟨[], [], none⟩ axEmpty (pstr "title") none 1 0 11 SUBTITLE_COLOR
        (pstr "regular") true).texts.map TextArtifact.text = [pstr "Title"]) ∧
    (set_title ⟨[], [], none⟩ axEmpty (pstr "title") none 1 0 11 SUBTITLE_COLOR
        (pstr "regular") true).title = [] := by
  have h := set_title_no_subtitle ⟨[], [], none⟩ axEmpty (pstr "title") none 1 0 11
    SUBTITLE_COLOR (pstr "regular") true rfl
  exact ⟨h.1.trans (by decide), h.2⟩

/-- Counterexample for C1: with title_case enabled but an empty (falsy) title,
a present subtitle is drawn verbatim, neither normalized nor title-cased,
because the casing of the subtitle is nested under the truthy-title guard. -/
theorem set_title_subtitle_uncased_counterexample :
    ((set_title ⟨[], [], none⟩ axEmpty [] (some (pstr "  in millions "))
        1 0 11 SUBTITLE_COLOR (pstr "regular") true).texts.map TextArtifact.text
      = [[], pstr "  in millions "]) ∧
    _title_case (pstr "  in millions ") ≠ pstr "  in millions " := by decide

/-- The subtitle texts the spec scenario expects set_title to draw: a truthy
subtitle is normalized and title-cased, and drawn when the cased text is still
truthy. -/
def expectedSubtitleTexts (subtitle : Option PyStr) : List PyStr :=
  match subtitle with
  | some s => if truthy s ∧ truthy (_title_case s) then [_title_case s] else []
  | none => []

/-- C1 as amended: when title_case is enabled and the title is non-empty, the
title is normalized and title-cased, and a truthy subtitle is normalized and
title-cased as well before being drawn; with an empty title neither string is
cased (see the counterexample). -/
theorem set_title_title_case (g : GlobalState) (ax : Axes) (title : PyStr)
    (subtitle : Option PyStr) (title_y subtitle_gap subtitle_fontsize : ℚ)
    (subtitle_color subtitle_weight : PyStr) (title_case : Bool)
    (hcase : title_case = true) (htitle : truthy title = true) :
    (set_title g ax title subtitle title_y subtitle_gap subtitle_fontsize
        subtitle_color subtitle_weight title_case).texts.map TextArtifact.text
      = ax.texts.map TextArtifact.text ++ [_title_case title]
          ++ expectedSubtitleTexts subtitle := by
  subst hcase
  have hct : casedTitle true title = _title_case title := by
    unfold casedTitle
    rw [htitle]
    rfl
  cases subtitle with
  | none =>
    have hcs : casedSubtitle true title none = none := by
      unfold casedSubtitle
      rw [htitle]
      rfl
    unfold set_title
    rw [hct, hcs]
    simp [truthyOpt, expectedSubtitleTexts]
  | some s =>
    by_cases hs : truthy s = true
    · have hcs : casedSubtitle true title (some s) = some (_title_case s) := by
        unfold casedSubtitle
        rw [htitle]
        simp [hs]
      unfold set_title
      rw [hct, hcs]
      by_cases hc2 : truthy (_title_case s) = true
      · simp [truthyOpt, hc2, expectedSubtitleTexts, hs, List.map_append]
      · simp [truthyOpt, hc2, expectedSubtitleTexts, List.map_append]
    · have hcs : casedSubtitle true title (some s) = some s := by
        unfold casedSubtitle
        rw [htitle]
        simp [hs]
      unfold set_title
      rw [hct, hcs]
      have hs2 : truthy s = false := by simpa using hs
      simp [truthyOpt, hs2, expectedSubtitleTexts, List.map_append]

/-- Witness for the amended C1 at the scenario given in the spec. -/
theorem set_title_title_case_witness :
    (set_title ⟨[], [], none⟩ axEmpty (pstr "quarterly   revenue")
        (some (pstr "  in millions ")) 1 0 11 SUBTITLE_COLOR (pstr "regular")
        true).texts.map TextArtifact.text
      = [pstr "Quarterly Revenue", pstr "In Millions"] := by
  have h := set_title_title_case ⟨[], [], none⟩ axEmpty (pstr "quarterly   revenue")
    (some (pstr "  in millions ")) 1 0 11 SUBTITLE_COLOR (pstr "regular") true
    rfl (by decide)
  rw [h]
  decide

/-- Python int() truncation toward zero on a rational tick value, using
truncating integer division (Int.tdiv), not the floor division of Int.div. -/
def pyInt (q : ℚ) : Int := Int.tdiv q.num (q.den : Int)

theorem pyInt_truncates_toward_zero :
    pyInt (Rat.mk' (-7) 2 (by decide) (by decide)) = -3 ∧
    pyInt (Rat.mk' 7 2 (by decide) (by decide)) = 3 := by decide

/-- Decimal digit code points of a natural number, least significant first;
zero yields the empty list. -/
def natDigitsRev : Nat → List Nat
  | 0 => []
  | n + 1 => (48 + (n + 1) % 10) :: natDigitsRev ((n + 1) / 10)
decreasing_by exact Nat.div_lt_self (Nat.succ_pos n) (by omega)

/-- Decimal digit code points, most significant first; zero prints as one 0. -/
def natDigits (n : Nat) : List Nat :=
  if n = 0 then [48] else (natDigitsRev n).reverse

/-- Insert a comma (code point 44) after every third digit, counting from the
least significant end of a reversed digit list. -/
def group3Rev : List Nat → List Nat
  | d1 :: d2 :: d3 :: d4 :: rest => d1 :: d2 :: d3 :: 44 :: group3Rev (d4 :: rest)
  | l => l

/-- Digit grouping as Python format with a comma spec does, on the
most-significant-first digit list. -/
def group3 (ds : List Nat) : List Nat := (group3Rev ds.reverse).reverse

/-- Model of Python format(n, comma spec) on an integer: an optional minus
sign, then comma-grouped decimal digits. -/
def pyFormatComma (n : Int) : PyStr :=
  if n < 0 then 45 :: group3 (natDigits n.natAbs) else group3 (natDigits n.toNat)

/-- Model of Python str on an integer, with no grouping. -/
def pyFormatPlain (n : Int) : PyStr :=
  if n < 0 then 45 :: natDigits n.natAbs else natDigits n.toNat

/-- The tick formatter style_plot installs: FuncFormatter rendering the
truncated integer with comma grouping. -/
def thousandsFormatter : ℚ → PyStr := fun x => pyFormatComma (pyInt x)

/-- The tick-rotation step of style_plot. -/
def tickStep (ax : Axes) (xr yr : ℚ) : Axes :=
  { ax with xRotation := xr, yRotation := yr }

/-- The thousands-separator step of style_plot: when the flag is truthy, the
formatter goes on the y axis for y or both, and on the x axis for x or both. -/
def thousandsStep (ax : Axes) (fmt : Option PyStr) : Axes :=
  if truthyOpt fmt then
    let ax1 :=
      if fmt = some (pstr "y") ∨ fmt = some (pstr "both") then
        { ax with yFormatter := some thousandsFormatter }
      else ax
    if fmt = some (pstr "x") ∨ fmt = some (pstr "both") then
      { ax1 with xFormatter := some thousandsFormatter }
    else ax1
  else ax

/-- A tabular dataset as the legend sizing consults it: nunique is the
distinct count of one column, or none when the lookup raises. -/
structure DataFrame where
  nunique : PyStr → Option Nat

/-- The item count used to size the legend: the distinct count of the dataset
column when both the dataset and the column name are given and the lookup
succeeds, else the number of legend labels. -/
def legendItems (df : Option DataFrame) (col : Option PyStr)
    (labels : List PyStr) : Nat :=
  match df, col with
  | some d, some c =>
    match d.nunique c with
    | some n => n
    | none => labels.length
  | _, _ => labels.length

/-- The legend-rebuilding step of style_plot. -/
def legendStep (ax : Axes) (df : Option DataFrame) (legendColumn : Option PyStr)
    (legend : Bool) (legendY : ℚ) (legendMaxCols : Nat) : Axes :=
  if legend then
    if ax.handles ≠ [] then
      let ncol := max 1 (min (legendItems df legendColumn ax.labels) legendMaxCols)
      let newLegend : Option Legend :=
        some ⟨ax.handles, ax.labels, ncol, pstr "lower left", (0, legendY), false⟩
      { ax with legend := newLegend }
    else ax
  else ax

/-- The x-axis-label casing statement of style_plot. -/
def labelStepX (ax : Axes) : Axes :=
  if truthy ax.xlabel then { ax with xlabel := _title_case ax.xlabel } else ax

/-- The y-axis-label casing statement of style_plot. -/
def labelStepY (ax : Axes) : Axes :=
  if truthy ax.ylabel then { ax with ylabel := _title_case ax.ylabel } else ax

/-- The axis-label casing step of style_plot: x label first, then y label. -/
def labelStep (ax : Axes) : Axes := labelStepY (labelStepX ax)

/-- The colormap-reassignment step of style_plot: with the flag set and an
active colormap recorded, recolor every image and every collection that has a
set_cmap attribute. -/
def cmapStep (g : GlobalState) (ax : Axes) (applyCmap : Bool) : Axes :=
  if applyCmap then
    match g.activeCmap with
    | some cm =>
      { ax with
        images := ax.images.map (fun _ => { cmap := some cm }),
        collections := ax.collections.map
          (fun c => if c.hasSetCmap then { c with cmap := some cm } else c) }
    | none => ax
  else ax

/-- Embedding of style_plot: tick rotation, optional thousands formatters,
legend rebuild, axis-label casing, colormap reassignment. The global state is
only read (for the active-colormap slot) and is returned unchanged. -/
def style_plot (g : GlobalState) (ax : Axes) (df : Option DataFrame)
    (legendColumn : Option PyStr) (formatThousandsAxis : Option PyStr)
    (xRotation yRotation : ℚ) (legend : Bool) (legendY : ℚ)
    (legendMaxCols : Nat) (applyCmap : Bool) : GlobalState × Axes :=
  (g, cmapStep g
    (labelStep
      (legendStep
        (thousandsStep (tickStep ax xRotation yRotation) formatThousandsAxis)
        df legendColumn legend legendY legendMaxCols))
    applyCmap)

theorem tickStep_frame (ax : Axes) (xr yr : ℚ) :
    (tickStep ax xr yr).title = ax.title ∧
    (tickStep ax xr yr).texts = ax.texts ∧
    (tickStep ax xr yr).handles = ax.handles ∧
    (tickStep ax xr yr).labels = ax.labels ∧
    (tickStep ax xr yr).xFormatter = ax.xFormatter ∧
    (tickStep ax xr yr).yFormatter = ax.yFormatter ∧
    (tickStep ax xr yr).legend = ax.legend ∧
    (tickStep ax xr yr).xlabel = ax.xlabel ∧
    (tickStep ax xr yr).ylabel = ax.ylabel ∧
    (tickStep ax xr yr).images = ax.images ∧
    (tickStep ax xr yr).collections = ax.collections :=
  ⟨rfl, rfl, rfl, rfl, rfl, rfl, rfl, rfl, rfl, rfl, rfl⟩

theorem thousandsStep_frame (ax : Axes) (fmt : Option PyStr) :
    (thousandsStep ax fmt).title = ax.title ∧
    (thousandsStep ax fmt).texts = ax.texts ∧
    (thousandsStep ax fmt).handles = ax.handles ∧
    (thousandsStep ax fmt).labels = ax.labels ∧
    (thousandsStep ax fmt).legend = ax.legend ∧
    (thousandsStep ax fmt).xlabel = ax.xlabel ∧
    (thousandsStep ax fmt).ylabel = ax.ylabel ∧
    (thousandsStep ax fmt).images = ax.images ∧
    (thousandsStep ax fmt).collections = ax.collections := by
  unfold thousandsStep
  split_ifs <;> exact ⟨rfl, rfl, rfl, rfl, rfl, rfl, rfl, rfl, rfl⟩

theorem legendStep_frame (ax : Axes) (df : Option DataFrame) (col : Option PyStr)
    (legend : Bool) (ly : ℚ) (maxc : Nat) :
    (legendStep ax df col legend ly maxc).title = ax.title ∧
    (legendStep ax df col legend ly maxc).texts = ax.texts ∧
    (legendStep ax df col legend ly maxc).handles = ax.handles ∧
    (legendStep ax df col legend ly maxc).labels = ax.labels ∧
    (legendStep ax df col legend ly maxc).xFormatter = ax.xFormatter ∧
    (legendStep ax df col legend ly maxc).yFormatter = ax.yFormatter ∧
    (legendStep ax df col legend ly maxc).xlabel = ax.xlabel ∧
    (legendStep ax df col legend ly maxc).ylabel = ax.ylabel ∧
    (legendStep ax df col legend ly maxc).images = ax.images ∧
    (legendStep ax df col legend ly maxc).collections = ax.collections := by
  unfold legendStep
  split_ifs <;> exact ⟨rfl, rfl, rfl, rfl, rfl, rfl, rfl, rfl, rfl, rfl⟩

theorem labelStepX_frame (ax : Axes) :
    (labelStepX ax).title = ax.title ∧
    (labelStepX ax).texts = ax.texts ∧
    (labelStepX ax).handles = ax.handles ∧
    (labelStepX ax).labels = ax.labels ∧
    (labelStepX ax).xFormatter = ax.xFormatter ∧
    (labelStepX ax).yFormatter = ax.yFormatter ∧
    (labelStepX ax).legend = ax.legend ∧
    (labelStepX ax).images = ax.images ∧
    (labelStepX ax).collections = ax.collections := by
  unfold labelStepX
  split_ifs <;> exact ⟨rfl, rfl, rfl, rfl, rfl, rfl, rfl, rfl, rfl⟩

theorem labelStepY_frame (ax : Axes) :
    (labelStepY ax).title = ax.title ∧
    (labelStepY ax).texts = ax.texts ∧
    (labelStepY ax).handles = ax.handles ∧
    (labelStepY ax).labels = ax.labels ∧
    (labelStepY ax).xFormatter = ax.xFormatter ∧
    (labelStepY ax).yFormatter = ax.yFormatter ∧
    (labelStepY ax).legend = ax.legend ∧
    (labelStepY ax).images = ax.images ∧
    (labelStepY ax).collections = ax.collections := by
  unfold labelStepY
  split_ifs <;> exact ⟨rfl, rfl, rfl, rfl, rfl, rfl, rfl, rfl, rfl⟩

theorem labelStep_frame (ax : Axes) :
    (labelStep ax).title = ax.title ∧
    (labelStep ax).texts = ax.texts ∧
    (labelStep ax).handles = ax.handles ∧
    (labelStep ax).labels = ax.labels ∧
    (labelStep ax).xFormatter = ax.xFormatter ∧
    (labelStep ax).yFormatter = ax.yFormatter ∧
    (labelStep ax).legend = ax.legend ∧
    (labelStep ax).images = ax.images ∧
    (labelStep ax).collections = ax.collections := by
  have hx := labelStepX_frame ax
  have hy := labelStepY_frame (labelStepX ax)
  exact ⟨hy.1.trans hx.1, hy.2.1.trans hx.2.1, hy.2.2.1.trans hx.2.2.1,
    hy.2.2.2.1.trans hx.2.2.2.1, hy.2.2.2.2.1.trans hx.2.2.2.2.1,
    hy.2.2.2.2.2.1.trans hx.2.2.2.2.2.1, hy.2.2.2.2.2.2.1.trans hx.2.2.2.2.2.2.1,
    hy.2.2.2.2.2.2.2.1.trans hx.2.2.2.2.2.2.2.1,
    hy.2.2.2.2.2.2.2.2.trans hx.2.2.2.2.2.2.2.2⟩

theorem cmapStep_frame (g : GlobalState) (ax : Axes) (ac : Bool) :
    (cmapStep g ax ac).title = ax.title ∧
    (cmapStep g ax ac).texts = ax.texts ∧
    (cmapStep g ax ac).handles = ax.handles ∧
    (cmapStep g ax ac).labels = ax.labels ∧
    (cmapStep g ax ac).xFormatter = ax.xFormatter ∧
    (cmapStep g ax ac).yFormatter = ax.yFormatter ∧
    (cmapStep g ax ac).legend = ax.legend ∧
    (cmapStep g ax ac).xlabel = ax.xlabel ∧
    (cmapStep g ax ac).ylabel = ax.ylabel := by
  unfold cmapStep
  split_ifs
  · cases g.activeCmap <;> exact ⟨rfl, rfl, rfl, rfl, rfl, rfl, rfl, rfl, rfl⟩
  · exact ⟨rfl, rfl, rfl, rfl, rfl, rfl, rfl, rfl, rfl⟩

/-- C10: style_plot leaves the process-wide state (rcParams, colormap
registry, active-colormap slot) unchanged, and on the axes it does not touch
the native title, the drawn texts, or the legend handles and labels it read. -/
theorem style_plot_frame (g : GlobalState) (ax : Axes) (df : Option DataFrame)
    (col : Option PyStr) (fmt : Option PyStr) (xr yr : ℚ) (legend : Bool)
    (ly : ℚ) (maxc : Nat) (ac : Bool) :
    (style_plot g ax df col fmt xr yr legend ly maxc ac).1 = g ∧
    (style_plot g ax df col fmt xr yr legend ly maxc ac).2.title = ax.title ∧
    (style_plot g ax df col fmt xr yr legend ly maxc ac).2.texts = ax.texts ∧
    (style_plot g ax df col fmt xr yr legend ly maxc ac).2.handles = ax.handles ∧
    (style_plot g ax df col fmt xr yr legend ly maxc ac).2.labels = ax.labels := by
  have h1 := thousandsStep_frame (tickStep ax xr yr) fmt
  have h2 := legendStep_frame (thousandsStep (tickStep ax xr yr) fmt) df col legend ly maxc
  have h3 := labelStep_frame
    (legendStep (thousandsStep (tickStep ax xr yr) fmt) df col legend ly maxc)
  have h4 := cmapStep_frame g
    (labelStep (legendStep (thousandsStep (tickStep ax xr yr) fmt) df col legend ly maxc)) ac
  refine ⟨rfl, ?_, ?_, ?_, ?_⟩
  · exact ((h4.1.trans h3.1).trans h2.1).trans h1.1
  · exact ((h4.2.1.trans h3.2.1).trans h2.2.1).trans h1.2.1
  · exact ((h4.2.2.1.trans h3.2.2.1).trans h2.2.2.1).trans h1.2.2.1
  · exact ((h4.2.2.2.1.trans h3.2.2.2.1).trans h2.2.2.2.1).trans h1.2.2.2.1

/-- C5: when style_plot rebuilds the legend (legend on, handles present), the
column count is the distinct-value count of the dataset column when that
lookup succeeds, else the number of legend labels, in all cases clamped
between 1 and legend_max_cols. -/
theorem style_plot_legend_ncol (g : GlobalState) (ax : Axes) (df : Option DataFrame)
    (col : Option PyStr) (fmt : Option PyStr) (xr yr : ℚ) (ly : ℚ) (maxc : Nat)
    (ac : Bool) (hh : ax.handles ≠ []) :
    (style_plot g ax df col fmt xr yr true ly maxc ac).2.legend
      = some { handles := ax.handles, labels := ax.labels,
               ncol := max 1 (min (legendItems df col ax.labels) maxc),
               loc := pstr "lower left", anchor := (0, ly), frameon := false } := by
  have h1 := thousandsStep_frame (tickStep ax xr yr) fmt
  have h3 := labelStep_frame
    (legendStep (thousandsStep (tickStep ax xr yr) fmt) df col true ly maxc)
  have h4 := cmapStep_frame g
    (labelStep (legendStep (thousandsStep (tickStep ax xr yr) fmt) df col true ly maxc)) ac
  have hleg : (style_plot g ax df col fmt xr yr true ly maxc ac).2.legend
      = (legendStep (thousandsStep (tickStep ax xr yr) fmt) df col true ly maxc).legend :=
    (h4.2.2.2.2.2.2.1).trans (h3.2.2.2.2.2.2.1)
  rw [hleg]
  unfold legendStep
  rw [if_pos rfl]
  have hh2 : (thousandsStep (tickStep ax xr yr) fmt).handles ≠ [] := by
    rw [h1.2.2.1]
    exact hh
  rw [if_pos hh2, h1.2.2.1, h1.2.2.2.1]
  exact rfl

/-- A dataset whose series column reports twenty distinct values. -/
def dfTwenty : DataFrame := ⟨fun c => if c = pstr "series" then some 20 else none⟩

/-- An axes carrying one legend handle and one label. -/
def axWithHandles : Axes := { axEmpty with handles := [1], labels := [pstr "a"] }

/-- Witness for C5: twenty distinct values and the default maximum of six give
six legend columns. -/
theorem style_plot_legend_ncol_witness :
    (style_plot ⟨[], [], none⟩ axWithHandles (some dfTwenty) (some (pstr "series"))
        none 30 10 true 1 6 true).2.legend
      = some { handles := [1], labels := [pstr "a"], ncol := 6,
               loc := pstr "lower left", anchor := (0, 1), frameon := false } := by
  have h := style_plot_legend_ncol ⟨[], [], none⟩ axWithHandles (some dfTwenty)
    (some (pstr "series")) none 30 10 1 6 true (by decide)
  rw [h]
  decide

theorem natDigitsRev_digits : ∀ (n : Nat), ∀ d ∈ natDigitsRev n, 48 ≤ d ∧ d ≤ 57
  | 0 => by
    intro d hd
    simp [natDigitsRev] at hd
  | n + 1 => by
    intro d hd
    rw [natDigitsRev] at hd
    rcases List.mem_cons.mp hd with rfl | hd2
    · constructor
      · omega
      · have : (n + 1) % 10 < 10 := Nat.mod_lt _ (by omega)
        omega
    · exact natDigitsRev_digits ((n + 1) / 10) d hd2
decreasing_by exact Nat.div_lt_self (Nat.succ_pos n) (by omega)

theorem natDigits_digits (n : Nat) : ∀ d ∈ natDigits n, 48 ≤ d ∧ d ≤ 57 := by
  unfold natDigits
  split_ifs
  · intro d hd
    simp at hd
    omega
  · intro d hd
    rw [List.mem_reverse] at hd
    exact natDigitsRev_digits n d hd

theorem filter_group3Rev : ∀ (l : List Nat), (∀ d ∈ l, d ≠ 44) →
    (group3Rev l).filter (fun c => c != 44) = l
  | d1 :: d2 :: d3 :: d4 :: rest, h => by
    show (d1 :: d2 :: d3 :: 44 :: group3Rev (d4 :: rest)).filter (fun c => c != 44)
      = d1 :: d2 :: d3 :: d4 :: rest
    have h1 : (d1 != 44) = true := by simpa using h d1 (by simp)
    have h2 : (d2 != 44) = true := by simpa using h d2 (by simp)
    have h3 : (d3 != 44) = true := by simpa using h d3 (by simp)
    have ih := filter_group3Rev (d4 :: rest) (fun d hd => h d (by simp at hd ⊢; tauto))
    simp [List.filter_cons, h1, h2, h3, ih]
  | [], _ => rfl
  | [d1], h => by
    show [d1].filter (fun c => c != 44) = [d1]
    have h1 : (d1 != 44) = true := by simpa using h d1 (by simp)
    simp [List.filter_cons, h1]
  | [d1, d2], h => by
    show [d1, d2].filter (fun c => c != 44) = [d1, d2]
    have h1 : (d1 != 44) = true := by simpa using h d1 (by simp)
    have h2 : (d2 != 44) = true := by simpa using h d2 (by simp)
    simp [List.filter_cons, h1, h2]
  | [d1, d2, d3], h => by
    show [d1, d2, d3].filter (fun c => c != 44) = [d1, d2, d3]
    have h1 : (d1 != 44) = true := by simpa using h d1 (by simp)
    have h2 : (d2 != 44) = true := by simpa using h d2 (by simp)
    have h3 : (d3 != 44) = true := by simpa using h d3 (by simp)
    simp [List.filter_cons, h1, h2, h3]

theorem filter_group3 (ds : List Nat) (h : ∀ d ∈ ds, d ≠ 44) :
    (group3 ds).filter (fun c => c != 44) = ds := by
  unfold group3
  rw [List.filter_reverse, filter_group3Rev ds.reverse
    (fun d hd => h d (List.mem_reverse.mp hd))]
  exact List.reverse_reverse ds

theorem filter_pyFormatComma (n : Int) :
    (pyFormatComma n).filter (fun c => c != 44) = pyFormatPlain n := by
  unfold pyFormatComma pyFormatPlain
  split_ifs with h
  · have h45 : ((45 : Nat) != 44) = true := rfl
    simp only [List.filter_cons, h45, if_true]
    rw [filter_group3 _ (fun d hd => by have := natDigits_digits n.natAbs d hd; omega)]
  · exact filter_group3 _ (fun d hd => by have := natDigits_digits n.toNat d hd; omega)

/-- Check that commas (code point 44) sit exactly at positions 3 mod 4 when a
grouped digit string is scanned from its least significant end. -/
def groupedOk : Nat → PyStr → Bool
  | _, [] => true
  | i, c :: rest => (if i % 4 = 3 then c == 44 else c != 44) && groupedOk (i + 1) rest

theorem groupedOk_add4 : ∀ (l : PyStr) (i : Nat), groupedOk (i + 4) l = groupedOk i l
  | [], _ => rfl
  | c :: rest, i => by
    rw [groupedOk, groupedOk]
    have hmod : (i + 4) % 4 = i % 4 := Nat.add_mod_right i 4
    have hrec : groupedOk (i + 4 + 1) rest = groupedOk (i + 1) rest := by
      have he : i + 4 + 1 = (i + 1) + 4 := by omega
      rw [he, groupedOk_add4 rest (i + 1)]
    rw [hmod, hrec]

theorem groupedOk_group3Rev : ∀ (ds : List Nat), (∀ d ∈ ds, d ≠ 44) →
    groupedOk 0 (group3Rev ds) = true
  | d1 :: d2 :: d3 :: d4 :: rest, h => by
    show groupedOk 0 (d1 :: d2 :: d3 :: 44 :: group3Rev (d4 :: rest)) = true
    have h1 : (d1 != 44) = true := by simpa using h d1 (by simp)
    have h2 : (d2 != 44) = true := by simpa using h d2 (by simp)
    have h3 : (d3 != 44) = true := by simpa using h d3 (by simp)
    have ih := groupedOk_group3Rev (d4 :: rest) (fun d hd => h d (by simp at hd ⊢; tauto))
    rw [groupedOk, groupedOk, groupedOk, groupedOk]
    rw [show ((3 : Nat) + 1) = 0 + 4 from rfl, groupedOk_add4, ih]
    simp [h1, h2, h3]
  | [], _ => rfl
  | [d1], h => by
    show groupedOk 0 [d1] = true
    have h1 : (d1 != 44) = true := by simpa using h d1 (by simp)
    simp [groupedOk, h1]
  | [d1, d2], h => by
    show groupedOk 0 [d1, d2] = true
    have h1 : (d1 != 44) = true := by simpa using h d1 (by simp)
    have h2 : (d2 != 44) = true := by simpa using h d2 (by simp)
    simp [groupedOk, h1, h2]
  | [d1, d2, d3], h => by
    show groupedOk 0 [d1, d2, d3] = true
    have h1 : (d1 != 44) = true := by simpa using h d1 (by simp)
    have h2 : (d2 != 44) = true := by simpa using h d2 (by simp)
    have h3 : (d3 != 44) = true := by simpa using h d3 (by simp)
    simp [groupedOk, h1, h2, h3]

theorem groupedOk_pyFormatComma (n : Int) (h : 0 ≤ n) :
    groupedOk 0 (pyFormatComma n).reverse = true := by
  unfold pyFormatComma
  rw [if_neg (by omega : ¬n < 0)]
  unfold group3
  rw [List.reverse_reverse]
  exact groupedOk_group3Rev _ (fun d hd => by
    have := natDigits_digits n.toNat d (List.mem_reverse.mp hd)
    omega)

theorem thousandsStep_y (ax : Axes) :
    (thousandsStep ax (some (pstr "y"))).yFormatter = some thousandsFormatter ∧
    (thousandsStep ax (some (pstr "y"))).xFormatter = ax.xFormatter := by
  unfold thousandsStep
  rw [if_pos (show truthyOpt (some (pstr "y")) = true by decide)]
  rw [if_pos (show (some (pstr "y") : Option PyStr) = some (pstr "y") ∨
      (some (pstr "y") : Option PyStr) = some (pstr "both") from Or.inl rfl)]
  rw [if_neg (show ¬((some (pstr "y") : Option PyStr) = some (pstr "x") ∨
      (some (pstr "y") : Option PyStr) = some (pstr "both")) by decide)]
  exact ⟨rfl, rfl⟩

theorem thousandsStep_x (ax : Axes) :
    (thousandsStep ax (some (pstr "x"))).xFormatter = some thousandsFormatter ∧
    (thousandsStep ax (some (pstr "x"))).yFormatter = ax.yFormatter := by
  unfold thousandsStep
  rw [if_pos (show truthyOpt (some (pstr "x")) = true by decide)]
  rw [if_neg (show ¬((some (pstr "x") : Option PyStr) = some (pstr "y") ∨
      (some (pstr "x") : Option PyStr) = some (pstr "both")) by decide)]
  rw [if_pos (show (some (pstr "x") : Option PyStr) = some (pstr "x") ∨
      (some (pstr "x") : Option PyStr) = some (pstr "both") from Or.inl rfl)]
  exact ⟨rfl, rfl⟩

theorem thousandsStep_both (ax : Axes) :
    (thousandsStep ax (some (pstr "both"))).xFormatter = some thousandsFormatter ∧
    (thousandsStep ax (some (pstr "both"))).yFormatter = some thousandsFormatter := by
  unfold thousandsStep
  rw [if_pos (show truthyOpt (some (pstr "both")) = true by decide)]
  rw [if_pos (show (some (pstr "both") : Option PyStr) = some (pstr "y") ∨
      (some (pstr "both") : Option PyStr) = some (pstr "both") from Or.inr rfl)]
  rw [if_pos (show (some (pstr "both") : Option PyStr) = some (pstr "x") ∨
      (some (pstr "both") : Option PyStr) = some (pstr "both") from Or.inr rfl)]
  exact ⟨rfl, rfl⟩

theorem thousandsStep_noneFlag (ax : Axes) : thousandsStep ax none = ax := by
  unfold thousandsStep
  rw [if_neg (show ¬(truthyOpt none = true) by decide)]

/-- C9: style_plot installs the integer digit-grouping formatter on exactly
the requested axes: the y axis for y, the x axis for x, both for both, and
neither when the flag is absent, leaving the other slot untouched. The
installed formatter renders a tick as its truncated integer with commas:
dropping the commas yields the plain decimal rendering, and for nonnegative
values the commas sit after every third digit from the right. -/
theorem style_plot_thousands (g : GlobalState) (ax : Axes) (df : Option DataFrame)
    (col : Option PyStr) (fmt : Option PyStr) (xr yr : ℚ) (legend : Bool) (ly : ℚ)
    (maxc : Nat) (ac : Bool) :
    (fmt = some (pstr "y") →
      (style_plot g ax df col fmt xr yr legend ly maxc ac).2.yFormatter
          = some thousandsFormatter ∧
      (style_plot g ax df col fmt xr yr legend ly maxc ac).2.xFormatter
          = ax.xFormatter) ∧
    (fmt = some (pstr "x") →
      (style_plot g ax df col fmt xr yr legend ly maxc ac).2.xFormatter
          = some thousandsFormatter ∧
      (style_plot g ax df col fmt xr yr legend ly maxc ac).2.yFormatter
          = ax.yFormatter) ∧
    (fmt = some (pstr "both") →
      (style_plot g ax df col fmt xr yr legend ly maxc ac).2.xFormatter
          = some thousandsFormatter ∧
      (style_plot g ax df col fmt xr yr legend ly maxc ac).2.yFormatter
          = some thousandsFormatter) ∧
    (fmt = none →
      (style_plot g ax df col fmt xr yr legend ly maxc ac).2.xFormatter
          = ax.xFormatter ∧
      (style_plot g ax df col fmt xr yr legend ly maxc ac).2.yFormatter
          = ax.yFormatter) ∧
    (∀ q : ℚ, (thousandsFormatter q).filter (fun c => c != 44) = pyFormatPlain (pyInt q)) ∧
    (∀ q : ℚ, 0 ≤ pyInt q → groupedOk 0 (thousandsFormatter q).reverse = true) := by
  have hx : (style_plot g ax df col fmt xr yr legend ly maxc ac).2.xFormatter
      = (thousandsStep (tickStep ax xr yr) fmt).xFormatter :=
    ((cmapStep_frame _ _ _).2.2.2.2.1.trans (labelStep_frame _).2.2.2.2.1).trans
      (legendStep_frame _ _ _ _ _ _).2.2.2.2.1
  have hy : (style_plot g ax df col fmt xr yr legend ly maxc ac).2.yFormatter
      = (thousandsStep (tickStep ax xr yr) fmt).yFormatter :=
    ((cmapStep_frame _ _ _).2.2.2.2.2.1.trans (labelStep_frame _).2.2.2.2.2.1).trans
      (legendStep_frame _ _ _ _ _ _).2.2.2.2.2.1
  refine ⟨?_, ?_, ?_, ?_, fun q => filter_pyFormatComma (pyInt q),
    fun q hq => groupedOk_pyFormatComma (pyInt q) hq⟩
  · intro hf
    subst hf
    exact ⟨hy.trans (thousandsStep_y _).1, hx.trans (thousandsStep_y _).2⟩
  · intro hf
    subst hf
    exact ⟨hx.trans (thousandsStep_x _).1, hy.trans (thousandsStep_x _).2⟩
  · intro hf
    subst hf
    exact ⟨hx.trans (thousandsStep_both _).1, hy.trans (thousandsStep_both _).2⟩
  · intro hf
    subst hf
    exact ⟨hx.trans ((congrArg Axes.xFormatter
        (thousandsStep_noneFlag (tickStep ax xr yr))).trans
        (tickStep_frame ax xr yr).2.2.2.2.1),
      hy.trans ((congrArg Axes.yFormatter
        (thousandsStep_noneFlag (tickStep ax xr yr))).trans
        (tickStep_frame ax xr yr).2.2.2.2.2.1)⟩

/-- Witness for C9: requesting the y axis installs the formatter there and
leaves the x-axis formatter untouched. -/
theorem style_plot_thousands_witness :
    (style_plot ⟨[], [], none⟩ axEmpty none none (some (pstr "y")) 30 10 true 1 6
        true).2.yFormatter = some thousandsFormatter ∧
    (style_plot ⟨[], [], none⟩ axEmpty none none (some (pstr "y")) 30 10 true 1 6
        true).2.xFormatter = none :=
  (style_plot_thousands ⟨[], [], none⟩ axEmpty none none (some (pstr "y")) 30 10 true
    1 6 true).1 rfl

end PlottingStyle
